import Mathlib

/-!
# Verification of the front-end HTTP wrapper and route table

Shallow embedding of `frontend/src/api/index.js` (the axios client, its two
interceptors and the six API operations) and of `frontend/src/router/index.js`
(the route table), followed by the theorems that settle the claims C1..C10.

JavaScript values are modelled as data values (what a JSON body or a caller
argument can hold) together with `undefined` and `Error` instances.  Side
effects (`ElMessage.error`, `console.error`, requests handed to the transport)
are recorded in explicit logs.
-/

namespace Spec2Proof

/-! ## JavaScript values -/

/-- A JavaScript Number.  Every finite double is a rational, so the finite
values are embedded in `ℚ` (the two zeros coincide, as they do for `===` and
for truthiness). -/
inductive JSNumber where
  | nan
  | infinity (negative : Bool)
  | finite (q : ℚ)

/-- JavaScript values: `undefined`, the JSON values, and `Error` instances as
built by `new Error(message)`.  An object is its list of own data properties;
the first binding of a key is the property. -/
inductive JSValue where
  | undefined
  | null
  | bool (b : Bool)
  | number (n : JSNumber)
  | string (s : String)
  | array (elems : List JSValue)
  | object (props : List (String × JSValue))
  | error (message : String)

/-- The default text of the response interceptor's non-200 branch. -/
def requestFailedText : String := "请求失败"

/-- The default text of the response interceptor's error handler. -/
def networkErrorText : String := "网络错误"

/-- ToBoolean: `undefined`, `null`, `false`, `0`, `NaN` and `""` are falsy,
everything else is truthy. -/
def ToBoolean : JSValue → Bool
  | .undefined => false
  | .null => false
  | .bool b => b
  | .number .nan => false
  | .number (.infinity _) => true
  | .number (.finite q) => decide (q ≠ 0)
  | .string s => decide (s ≠ "")
  | .array _ => true
  | .object _ => true
  | .error _ => true

/-- The expression `a || b`. -/
def logicalOr (a b : JSValue) : JSValue :=
  if ToBoolean a then a else b

/-- Own-property lookup in a property list. -/
def lookupProp (key : String) : List (String × JSValue) → Option JSValue
  | [] => none
  | (k, v) :: rest => if k = key then some v else lookupProp key rest

/-- Property read `v.key`, for the keys `code` and `message` the program
reads (no built-in prototype defines `code`; only `Error.prototype` defines
`message`).  Reading a property of `undefined` or `null` throws a TypeError,
which is `none`; a missing property reads as `undefined`. -/
def getProp (v : JSValue) (key : String) : Option JSValue :=
  match v with
  | .undefined => none
  | .null => none
  | .object props => some ((lookupProp key props).getD .undefined)
  | .error m => some (if key = "message" then .string m else .undefined)
  | _ => some .undefined

/-- The test `v === n` against a finite numeric literal `n`: strict equality
holds only for a Number of the same value, with no coercion. -/
def strictEqualsNumber (v : JSValue) (n : ℚ) : Bool :=
  match v with
  | .number (.finite q) => decide (q = n)
  | _ => false

/-- Number::toString; `fmt` is the runtime's decimal formatting of a finite
value. -/
def numberToString (fmt : ℚ → String) : JSNumber → String
  | .nan => "NaN"
  | .infinity false => "Infinity"
  | .infinity true => "-Infinity"
  | .finite q => fmt q

mutual
/-- ToString, as applied by a template literal and by `new Error(x)`.  An
array joins its elements with commas; a plain object gives
`[object Object]` through `Object.prototype.toString`, unless an own data
property named `toString` shadows that method, in which case the conversion
throws a TypeError (`none`). -/
def ToString (fmt : ℚ → String) : JSValue → Option String
  | .undefined => some "undefined"
  | .null => some "null"
  | .bool true => some "true"
  | .bool false => some "false"
  | .number n => some (numberToString fmt n)
  | .string s => some s
  | .array elems => joinElems fmt elems
  | .object props =>
      if (lookupProp "toString" props).isSome then none else some "[object Object]"
  | .error m => some (if m = "" then "Error" else "Error: " ++ m)
/-- Array.prototype.join with the separator `,`: `undefined` and `null`
elements contribute the empty string. -/
def joinElems (fmt : ℚ → String) : List JSValue → Option String
  | [] => some ""
  | [x] => elemToString fmt x
  | x :: y :: rest =>
      match elemToString fmt x, joinElems fmt (y :: rest) with
      | some a, some b => some (a ++ "," ++ b)
      | _, _ => none
/-- The string an array element contributes to a join. -/
def elemToString (fmt : ℚ → String) : JSValue → Option String
  | .undefined => some ""
  | .null => some ""
  | v => ToString fmt v
end

/-- The expression `new Error(x)`: the instance's message is `ToString(x)`,
or empty when `x` is `undefined`.  It is `none` when the conversion throws. -/
def newError (fmt : ℚ → String) : JSValue → Option JSValue
  | .undefined => some (.error "")
  | x => (ToString fmt x).map JSValue.error

/-! ## Effects and completions -/

/-- How a handler, or the promise an operation returns, completes. -/
inductive Completion where
  /-- The handler returns the value, which fulfils the promise. -/
  | returned (v : JSValue)
  /-- The handler returns `Promise.reject(reason)`. -/
  | rejected (reason : JSValue)
  /-- The handler is interrupted by a TypeError of the runtime, which
  rejects the promise with that TypeError. -/
  | threwTypeError

/-- The promise settles as a failure: rejected, or interrupted by a throw. -/
def Completion.isFailure : Completion → Bool
  | .returned _ => false
  | .rejected _ => true
  | .threwTypeError => true

/-- What running a handler did: the arguments of the `ElMessage.error` calls
in order, the `console.error` calls in order, and how it completed. -/
structure HandlerRun where
  notifications : List JSValue
  console : List (String × JSValue)
  completion : Completion

/-- The HTTP response object axios hands to the response interceptor. -/
structure AxiosResponse where
  data : JSValue
  status : Nat

/-! ## `api/index.js`: the client and its interceptors -/

/-- HTTP methods used by the client. -/
inductive Method where
  | GET
  | POST
  | PUT
  | DELETE

/-- The defaults an axios instance is created with. -/
structure AxiosDefaults where
  baseURL : String
  timeout : Nat

/-- The configuration of one request: the instance defaults merged with what
the call chose.  An absent body or absent query parameters are `undefined`. -/
structure RequestConfig where
  baseURL : String
  timeout : Nat
  method : Method
  url : String
  data : JSValue
  params : JSValue

/-- The instance `axios.create({ baseURL: '/api/v1', timeout: 30000 })`. -/
def request : AxiosDefaults :=
  { baseURL := "/api/v1", timeout := 30000 }

/-- Request interceptor, success handler: `config => config`. -/
def requestFulfilled (config : RequestConfig) : RequestConfig :=
  config

/-- Request interceptor, error handler: logs and rejects with the error. -/
def requestRejected (error : JSValue) : HandlerRun :=
  { notifications := [], console := [("请求错误:", error)], completion := .rejected error }

/-- Response interceptor, success handler:
`res = response.data; if (res.code === 200) return res; else
ElMessage.error(res.message || '请求失败'); return Promise.reject(new
Error(res.message || '请求失败'))`.  The call of `ElMessage.error` is recorded
with its argument, and the run goes on as it does when that call returns,
which is the case for every string argument; what the library does with an
argument that is not a string (it reads an object as its options and may
throw) is not modelled, so the completion after such a call is meaningful
only as a failure. -/
def responseFulfilled (fmt : ℚ → String) (response : AxiosResponse) : HandlerRun :=
  let res := response.data
  match getProp res "code" with
  | none => { notifications := [], console := [], completion := .threwTypeError }
  | some code =>
    if strictEqualsNumber code 200 then
      { notifications := [], console := [], completion := .returned res }
    else
      match getProp res "message" with
      | none => { notifications := [], console := [], completion := .threwTypeError }
      | some shown =>
        let notified := [logicalOr shown (.string requestFailedText)]
        match getProp res "message" with
        | none => { notifications := notified, console := [], completion := .threwTypeError }
        | some carried =>
          match newError fmt (logicalOr carried (.string requestFailedText)) with
          | none => { notifications := notified, console := [], completion := .threwTypeError }
          | some err => { notifications := notified, console := [], completion := .rejected err }

/-- Response interceptor, error handler: `console.error('响应错误:', error);
ElMessage.error(error.message || '网络错误'); return Promise.reject(error)`.
As in the success handler, the call of `ElMessage.error` is recorded and
taken to return, which it does for every string argument, the only kind an
error raised by the transport carries. -/
def responseRejected (error : JSValue) : HandlerRun :=
  let logged := [("响应错误:", error)]
  match getProp error "message" with
  | none => { notifications := [], console := logged, completion := .threwTypeError }
  | some m =>
    { notifications := [logicalOr m (.string networkErrorText)], console := logged,
      completion := .rejected error }

/-! ## The instance's request methods -/

/-- The call `instance.get(url, { params })`. -/
def AxiosDefaults.get (self : AxiosDefaults) (url : String) (params : JSValue) :
    RequestConfig :=
  { baseURL := self.baseURL, timeout := self.timeout, method := .GET, url := url,
    data := .undefined, params := params }

/-- The call `instance.post(url, data)`. -/
def AxiosDefaults.post (self : AxiosDefaults) (url : String) (data : JSValue) :
    RequestConfig :=
  { baseURL := self.baseURL, timeout := self.timeout, method := .POST, url := url,
    data := data, params := .undefined }

/-- The call `instance.put(url, data)`. -/
def AxiosDefaults.put (self : AxiosDefaults) (url : String) (data : JSValue) :
    RequestConfig :=
  { baseURL := self.baseURL, timeout := self.timeout, method := .PUT, url := url,
    data := data, params := .undefined }

/-- The call `instance.delete(url)`, with no configuration argument. -/
def AxiosDefaults.delete (self : AxiosDefaults) (url : String) : RequestConfig :=
  { baseURL := self.baseURL, timeout := self.timeout, method := .DELETE, url := url,
    data := .undefined, params := .undefined }

/-- What the network answers to a request: a response, or a transport
error (no connection, timeout, rejected status). -/
inductive TransportResult where
  | response (r : AxiosResponse)
  | failure (error : JSValue)

/-- What one API call did: the requests handed to the transport in order,
the notifications and console lines, and how the returned promise settled. -/
structure CallRun where
  sent : List RequestConfig
  notifications : List JSValue
  console : List (String × JSValue)
  completion : Completion

/-- One request through the instance: the request interceptor, one exchange
with the transport, then the response interceptor's handler for the
outcome. -/
def dispatch (fmt : ℚ → String) (transport : RequestConfig → TransportResult)
    (config : RequestConfig) : CallRun :=
  let outgoing := requestFulfilled config
  match transport outgoing with
  | .response r =>
    let h := responseFulfilled fmt r
    { sent := [outgoing], notifications := h.notifications, console := h.console,
      completion := h.completion }
  | .failure e =>
    let h := responseRejected e
    { sent := [outgoing], notifications := h.notifications, console := h.console,
      completion := h.completion }

/-- The template literal with prefix `/knowledge/` and the substitution `id`;
`none` when converting `id` to a string throws. -/
def knowledgePath (fmt : ℚ → String) (id : JSValue) : Option String :=
  (ToString fmt id).map fun s => "/knowledge/" ++ s

/-- A call whose argument evaluation threw before any request was made. -/
def abortedCall : CallRun :=
  { sent := [], notifications := [], console := [], completion := .threwTypeError }

/-! ## `api/index.js`: the API operations -/

/-- The operation `chatAPI.sendMessage(data)`: `request.post('/chat', data)`. -/
def chatAPI.sendMessage (fmt : ℚ → String) (transport : RequestConfig → TransportResult)
    (data : JSValue) : CallRun :=
  dispatch fmt transport (request.post "/chat" data)

/-- The operation `knowledgeAPI.getList(params)`:
`request.get('/knowledge', { params })`. -/
def knowledgeAPI.getList (fmt : ℚ → String) (transport : RequestConfig → TransportResult)
    (params : JSValue) : CallRun :=
  dispatch fmt transport (request.get "/knowledge" params)

/-- The operation `knowledgeAPI.create(data)`: `request.post('/knowledge', data)`. -/
def knowledgeAPI.create (fmt : ℚ → String) (transport : RequestConfig → TransportResult)
    (data : JSValue) : CallRun :=
  dispatch fmt transport (request.post "/knowledge" data)

/-- The operation `knowledgeAPI.update(id, data)`: a PUT to the template
literal's path with body `data`. -/
def knowledgeAPI.update (fmt : ℚ → String) (transport : RequestConfig → TransportResult)
    (id data : JSValue) : CallRun :=
  match knowledgePath fmt id with
  | none => abortedCall
  | some url => dispatch fmt transport (request.put url data)

/-- The operation `knowledgeAPI.delete(id)`: a DELETE to the template
literal's path. -/
def knowledgeAPI.delete (fmt : ℚ → String) (transport : RequestConfig → TransportResult)
    (id : JSValue) : CallRun :=
  match knowledgePath fmt id with
  | none => abortedCall
  | some url => dispatch fmt transport (request.delete url)

/-- The operation `knowledgeAPI.search(keyword)`:
`request.get('/knowledge/search', { params: { q: keyword } })`. -/
def knowledgeAPI.search (fmt : ℚ → String) (transport : RequestConfig → TransportResult)
    (keyword : JSValue) : CallRun :=
  dispatch fmt transport (request.get "/knowledge/search" (.object [("q", keyword)]))

/-! ## `router/index.js`: the route table -/

/-- The two view components the table names. -/
inductive Component where
  | ChatView
  | KnowledgeView
  deriving DecidableEq

/-- One record of the route table. -/
structure RouteRecord where
  path : String
  name : Option String
  redirect : Option String
  component : Option Component
  deriving DecidableEq

/-- The table `routes`. -/
def routes : List RouteRecord :=
  [ { path := "/", name := none, redirect := some "/chat", component := none },
    { path := "/chat", name := some "Chat", redirect := none,
      component := some .ChatView },
    { path := "/knowledge", name := some "Knowledge", redirect := none,
      component := some .KnowledgeView } ]

/-- The record of a table a static path matches: the first one with that
path.  All paths of the table are static (no parameters) and matching is
equality of paths; the router's default options also match a path that
differs by a trailing slash or by letter case (`/chat/`, `/CHAT`), which is
not modelled: the paths resolved below are the table's own. -/
def matchRecord (table : List RouteRecord) (path : String) : Option RouteRecord :=
  table.find? fun r => r.path == path

/-- Resolution of a path against a table, following redirects: the component
reached and the number of redirects followed.  `fuel` bounds the number of
lookups; `none` when no record matches, when the record reached has neither a
redirect nor a component, or when the fuel runs out. -/
def resolve (table : List RouteRecord) : Nat → String → Option (Component × Nat)
  | 0, _ => none
  | fuel + 1, path =>
    match matchRecord table path with
    | none => none
    | some r =>
      match r.redirect with
      | some target => (resolve table fuel target).map fun (c, k) => (c, k + 1)
      | none => r.component.map fun c => (c, 0)

/-! ## Sample inputs -/

/-- The envelope `{ code: 200, message: 'ok', data: [1, 'a'] }`. -/
def okEnvelope : JSValue :=
  .object [("code", .number (.finite 200)), ("message", .string "ok"),
    ("data", .array [.number (.finite 1), .string "a"])]

/-- The envelope `{ code: 500, message: '' }`. -/
def emptyMessageEnvelope : JSValue :=
  .object [("code", .number (.finite 500)), ("message", .string "")]

/-- The envelope `{ code: 500, message: 'boom' }`. -/
def boomEnvelopeProps : List (String × JSValue) :=
  [("code", .number (.finite 500)), ("message", .string "boom")]

/-- The envelope `{ code: 500, message: [] }`. -/
def arrayMessageEnvelope : JSValue :=
  .object [("code", .number (.finite 500)), ("message", .array [])]

/-- The envelope `{ code: 404 }`, which has no message. -/
def noMessageEnvelopeProps : List (String × JSValue) :=
  [("code", .number (.finite 404))]

/-- The error axios raises on a timeout:
`{ message: 'timeout of 30000ms exceeded', code: 'ECONNABORTED' }`. -/
def timeoutError : JSValue :=
  .object [("message", .string "timeout of 30000ms exceeded"),
    ("code", .string "ECONNABORTED")]

/-- A transport that answers every request with a connection failure. -/
def offlineTransport (_ : RequestConfig) : TransportResult :=
  .failure (.object [("message", .string "Network Error")])

/-- The id `{ toString: 1 }`, whose own property shadows the conversion
method. -/
def shadowedToStringId : JSValue :=
  .object [("toString", .number (.finite 1))]

/-! ## Auxiliary facts -/

/-- Strict equality with a numeric literal holds exactly for the Number of
that value. -/
theorem strictEqualsNumber_iff (v : JSValue) (n : ℚ) :
    strictEqualsNumber v n = true ↔ v = .number (.finite n) := by
  unfold strictEqualsNumber
  split
  · simp
  · rename_i h
    constructor
    · intro hf
      cases hf
    · intro hv
      exact absurd hv (h n)

/-- The default text is not empty. -/
theorem requestFailedText_ne_empty : requestFailedText ≠ "" := by
  decide

/-- The value `a || b` with a truthy `b` is truthy. -/
theorem ToBoolean_logicalOr (a b : JSValue) (hb : ToBoolean b = true) :
    ToBoolean (logicalOr a b) = true := by
  unfold logicalOr
  split
  · assumption
  · exact hb

/-- A truthy value is not `undefined`, so `new Error` converts it. -/
theorem newError_of_truthy (fmt : ℚ → String) (x : JSValue) (hx : ToBoolean x = true) :
    newError fmt x = (ToString fmt x).map JSValue.error := by
  cases x <;> first | rfl | (simp [ToBoolean] at hx)

/-- On an object body whose code is the number 200 the success handler
returns the body and does nothing else. -/
theorem responseFulfilled_object_ok (fmt : ℚ → String) (props : List (String × JSValue))
    (status : Nat)
    (hcode : (lookupProp "code" props).getD .undefined = .number (.finite 200)) :
    responseFulfilled fmt ⟨.object props, status⟩ =
      { notifications := [], console := [], completion := .returned (.object props) } := by
  simp [responseFulfilled, getProp, hcode, strictEqualsNumber]

/-- On an object body whose code is not the number 200 the success handler
notifies `res.message || '请求失败'` once and then builds the Error from the
same value. -/
theorem responseFulfilled_object_other (fmt : ℚ → String) (props : List (String × JSValue))
    (status : Nat)
    (hcode : (lookupProp "code" props).getD .undefined ≠ .number (.finite 200)) :
    responseFulfilled fmt ⟨.object props, status⟩ =
      match ToString fmt (logicalOr ((lookupProp "message" props).getD .undefined)
          (.string requestFailedText)) with
      | none =>
        { notifications := [logicalOr ((lookupProp "message" props).getD .undefined)
            (.string requestFailedText)], console := [], completion := .threwTypeError }
      | some s =>
        { notifications := [logicalOr ((lookupProp "message" props).getD .undefined)
            (.string requestFailedText)], console := [],
          completion := .rejected (.error s) } := by
  have hne : strictEqualsNumber ((lookupProp "code" props).getD .undefined) 200 = false := by
    cases h : strictEqualsNumber ((lookupProp "code" props).getD .undefined) 200
    · rfl
    · exact absurd ((strictEqualsNumber_iff _ _).mp h) hcode
  have htruthy : ToBoolean (logicalOr ((lookupProp "message" props).getD .undefined)
      (.string requestFailedText)) = true :=
    ToBoolean_logicalOr _ _ (by simp [ToBoolean, requestFailedText])
  simp only [responseFulfilled, getProp, hne, newError_of_truthy fmt _ htruthy]
  cases ToString fmt (logicalOr ((lookupProp "message" props).getD .undefined)
      (.string requestFailedText)) <;> simp

/-! ## The response interceptor: C1, C2, C9, C10, C4 -/

/-- C1: for every response whose body is an envelope with code equal to the
number 200, the success handler returns exactly `response.data`, emits no
notification, writes nothing to the console and does not fail. -/
theorem C1_success_returns_envelope (fmt : ℚ → String) (response : AxiosResponse)
    (hcode : getProp response.data "code" = some (.number (.finite 200))) :
    responseFulfilled fmt response =
      { notifications := [], console := [], completion := .returned response.data } ∧
    (responseFulfilled fmt response).completion.isFailure = false := by
  have h : responseFulfilled fmt response =
      { notifications := [], console := [], completion := .returned response.data } := by
    simp [responseFulfilled, hcode, strictEqualsNumber]
  rw [h]
  exact ⟨rfl, rfl⟩

/-- C1 at the envelope `{ code: 200, message: 'ok', data: [1, 'a'] }` carried
by an HTTP 200 response. -/
theorem C1_success_returns_envelope_witness :
    getProp okEnvelope "code" = some (.number (.finite 200)) ∧
    (responseFulfilled (fun _ => "") ⟨okEnvelope, 200⟩ =
      { notifications := [], console := [], completion := .returned okEnvelope } ∧
    (responseFulfilled (fun _ => "") ⟨okEnvelope, 200⟩).completion.isFailure = false) :=
  ⟨by simp [okEnvelope, getProp, lookupProp],
   C1_success_returns_envelope (fun _ => "") ⟨okEnvelope, 200⟩
     (by simp [okEnvelope, getProp, lookupProp])⟩

/-- C2 fails as stated: the envelope `{ code: 500, message: '' }` has a code
other than 200 and the message `''`, yet `ElMessage.error` is called with the
default text and not with `res.message`, whatever the runtime's number
formatting. -/
theorem C2_counterexample :
    getProp emptyMessageEnvelope "code" = some (.number (.finite 500)) ∧
    getProp emptyMessageEnvelope "message" = some (.string "") ∧
    (∀ fmt : ℚ → String,
      (responseFulfilled fmt ⟨emptyMessageEnvelope, 200⟩).notifications =
        [.string requestFailedText]) ∧
    ¬ ∃ fmt : ℚ → String,
      (responseFulfilled fmt ⟨emptyMessageEnvelope, 200⟩).notifications = [.string ""] := by
  have hrun : ∀ fmt : ℚ → String,
      (responseFulfilled fmt ⟨emptyMessageEnvelope, 200⟩).notifications =
        [.string requestFailedText] := by
    intro fmt
    simp [responseFulfilled, emptyMessageEnvelope, getProp, lookupProp, strictEqualsNumber,
      logicalOr, ToBoolean, newError, ToString]
  refine ⟨by simp [emptyMessageEnvelope, getProp, lookupProp],
    by simp [emptyMessageEnvelope, getProp, lookupProp], hrun, ?_⟩
  rintro ⟨fmt, h⟩
  rw [hrun fmt] at h
  simp [requestFailedText] at h

/-- C2 as amended: for every envelope (object body) whose code is not the
number 200, `ElMessage.error` is called exactly once, with the value
`res.message || '请求失败'`, which is the envelope's message whenever that
message is truthy; the envelope is never returned; whenever the message is a
string or is falsy the notified value is a non-empty string and the promise
is rejected with an Error carrying that same string, and for a non-empty
string message that string is the message itself. -/
theorem C2_non200_notifies_and_rejects (fmt : ℚ → String) (props : List (String × JSValue))
    (status : Nat)
    (hcode : (lookupProp "code" props).getD .undefined ≠ .number (.finite 200)) :
    (responseFulfilled fmt ⟨.object props, status⟩).notifications =
      [logicalOr ((lookupProp "message" props).getD .undefined) (.string requestFailedText)] ∧
    (ToBoolean ((lookupProp "message" props).getD .undefined) = true →
      (responseFulfilled fmt ⟨.object props, status⟩).notifications =
        [(lookupProp "message" props).getD .undefined]) ∧
    (∀ v, (responseFulfilled fmt ⟨.object props, status⟩).completion ≠ .returned v) ∧
    (((∃ t, (lookupProp "message" props).getD .undefined = .string t) ∨
        ToBoolean ((lookupProp "message" props).getD .undefined) = false) →
      ∃ s, s ≠ "" ∧
        responseFulfilled fmt ⟨.object props, status⟩ =
          { notifications := [.string s], console := [],
            completion := .rejected (.error s) }) ∧
    (∀ s, (lookupProp "message" props).getD .undefined = .string s → s ≠ "" →
      responseFulfilled fmt ⟨.object props, status⟩ =
        { notifications := [.string s], console := [],
          completion := .rejected (.error s) }) := by
  have hrun := responseFulfilled_object_other fmt props status hcode
  refine ⟨?_, ?_, ?_, ?_, ?_⟩
  · rw [hrun]
    split <;> rfl
  · intro ht
    rw [hrun]
    have : logicalOr ((lookupProp "message" props).getD .undefined)
        (.string requestFailedText) = (lookupProp "message" props).getD .undefined := by
      simp [logicalOr, ht]
    rw [this]
    split <;> rfl
  · intro v
    rw [hrun]
    split <;> simp
  · intro hmsg
    by_cases ht : ToBoolean ((lookupProp "message" props).getD .undefined) = true
    · obtain ⟨t, hstr⟩ | hf := hmsg
      · have hne : t ≠ "" := by
          rw [hstr] at ht
          simpa [ToBoolean] using ht
        refine ⟨t, hne, ?_⟩
        rw [hrun, hstr]
        simp [logicalOr, ToBoolean, hne, ToString]
      · rw [hf] at ht
        cases ht
    · have hf : ToBoolean ((lookupProp "message" props).getD .undefined) = false := by
        simpa using ht
      refine ⟨requestFailedText, requestFailedText_ne_empty, ?_⟩
      rw [hrun]
      simp [logicalOr, hf, ToString]
  · intro s hm hne
    rw [hrun, hm]
    simp [logicalOr, ToBoolean, hne, ToString]

/-- The amended C2 at the envelope `{ code: 500, message: 'boom' }`. -/
theorem C2_non200_notifies_and_rejects_witness :
    (lookupProp "code" boomEnvelopeProps).getD .undefined ≠ .number (.finite 200) ∧
    responseFulfilled (fun _ => "") ⟨.object boomEnvelopeProps, 200⟩ =
      { notifications := [.string "boom"], console := [],
        completion := .rejected (.error "boom") } :=
  have hcode : (lookupProp "code" boomEnvelopeProps).getD .undefined ≠
      .number (.finite 200) := by
    simp [boomEnvelopeProps, lookupProp]
  ⟨hcode,
   (C2_non200_notifies_and_rejects (fun _ => "") boomEnvelopeProps 200 hcode).2.2.2.2 "boom"
     (by simp [boomEnvelopeProps, lookupProp]) (by decide)⟩

/-- C9 fails as stated: for the envelope `{ code: 500, message: [] }` the
message is truthy, so the notification receives the array itself and the
rejecting Error's message is the array's string form, the empty string. -/
theorem C9_counterexample :
    getProp arrayMessageEnvelope "code" = some (.number (.finite 500)) ∧
    getProp arrayMessageEnvelope "message" = some (.array []) ∧
    ∀ fmt : ℚ → String,
      responseFulfilled fmt ⟨arrayMessageEnvelope, 200⟩ =
        { notifications := [.array []], console := [],
          completion := .rejected (.error "") } := by
  refine ⟨by simp [arrayMessageEnvelope, getProp, lookupProp],
    by simp [arrayMessageEnvelope, getProp, lookupProp], ?_⟩
  intro fmt
  simp [responseFulfilled, arrayMessageEnvelope, getProp, lookupProp, strictEqualsNumber,
    logicalOr, ToBoolean, newError, ToString, joinElems]

/-- C9 as amended: on the non-200 branch, whenever the envelope's message is
a string or is falsy (missing, `null`, the empty string, ...), the
notification text and the rejecting Error's message are one and the same
non-empty string: the message itself when it is a non-empty string, and the
default `请求失败` when the message is missing, `null` or the empty string. -/
theorem C9_same_nonempty_text (fmt : ℚ → String) (props : List (String × JSValue))
    (status : Nat)
    (hcode : (lookupProp "code" props).getD .undefined ≠ .number (.finite 200))
    (hmsg : (∃ t, (lookupProp "message" props).getD .undefined = .string t) ∨
      ToBoolean ((lookupProp "message" props).getD .undefined) = false) :
    ∃ s, s ≠ "" ∧
      responseFulfilled fmt ⟨.object props, status⟩ =
        { notifications := [.string s], console := [],
          completion := .rejected (.error s) } ∧
      (∀ t, (lookupProp "message" props).getD .undefined = .string t → t ≠ "" → s = t) ∧
      (lookupProp "message" props = none ∨
        (lookupProp "message" props).getD .undefined = .null ∨
        (lookupProp "message" props).getD .undefined = .string "" →
          s = requestFailedText) := by
  have hrun := responseFulfilled_object_other fmt props status hcode
  by_cases ht : ToBoolean ((lookupProp "message" props).getD .undefined) = true
  · obtain ⟨t, hstr⟩ | hf := hmsg
    · have hne : t ≠ "" := by
        rw [hstr] at ht
        simpa [ToBoolean] using ht
      refine ⟨t, hne, ?_, ?_, ?_⟩
      · rw [hrun, hstr]
        simp [logicalOr, ToBoolean, hne, ToString]
      · intro u hu _
        rw [hstr] at hu
        cases hu
        rfl
      · rintro (hnone | hnull | hempty)
        · rw [hnone] at hstr
          cases hstr
        · rw [hnull] at hstr
          cases hstr
        · rw [hempty] at hstr
          cases hstr
          exact absurd rfl hne
    · rw [hf] at ht
      cases ht
  · have hf : ToBoolean ((lookupProp "message" props).getD .undefined) = false := by
      simpa using ht
    refine ⟨requestFailedText, requestFailedText_ne_empty, ?_, ?_, ?_⟩
    · rw [hrun]
      simp [logicalOr, hf, ToString]
    · intro t hstr hne
      rw [hstr] at hf
      simp [ToBoolean, hne] at hf
    · intro _
      rfl

/-- The amended C9 at the envelope `{ code: 404 }`, which has no message: the
notification and the Error both carry the default text. -/
theorem C9_same_nonempty_text_witness :
    ∃ s, s ≠ "" ∧
      responseFulfilled (fun _ => "") ⟨.object noMessageEnvelopeProps, 404⟩ =
        { notifications := [.string s], console := [],
          completion := .rejected (.error s) } ∧
      (∀ t, (lookupProp "message" noMessageEnvelopeProps).getD .undefined = .string t →
        t ≠ "" → s = t) ∧
      (lookupProp "message" noMessageEnvelopeProps = none ∨
        (lookupProp "message" noMessageEnvelopeProps).getD .undefined = .null ∨
        (lookupProp "message" noMessageEnvelopeProps).getD .undefined = .string "" →
          s = requestFailedText) :=
  C9_same_nonempty_text (fun _ => "") noMessageEnvelopeProps 404
    (by simp [noMessageEnvelopeProps, lookupProp])
    (Or.inr (by simp [noMessageEnvelopeProps, lookupProp, ToBoolean]))

/-- C10: an envelope is treated as success if and only if its code is the
number 200.  With that code the handler returns the envelope and notifies
nothing; with any other code (the string `"200"`, another number such as 201
or 0, or no code field) it emits exactly one notification and the promise
fails, whatever the other fields are. -/
theorem C10_success_iff_code_is_number_200 (fmt : ℚ → String)
    (props : List (String × JSValue)) (status : Nat) :
    ((responseFulfilled fmt ⟨.object props, status⟩).completion.isFailure = false ↔
      (lookupProp "code" props).getD .undefined = .number (.finite 200)) ∧
    ((lookupProp "code" props).getD .undefined = .number (.finite 200) →
      responseFulfilled fmt ⟨.object props, status⟩ =
        { notifications := [], console := [], completion := .returned (.object props) }) ∧
    ((lookupProp "code" props).getD .undefined ≠ .number (.finite 200) →
      (responseFulfilled fmt ⟨.object props, status⟩).notifications.length = 1 ∧
      (responseFulfilled fmt ⟨.object props, status⟩).completion.isFailure = true) ∧
    ((lookupProp "code" props = some (.string "200") ∨
      lookupProp "code" props = some (.number (.finite 201)) ∨
      lookupProp "code" props = some (.number (.finite 0)) ∨
      lookupProp "code" props = none) →
      (responseFulfilled fmt ⟨.object props, status⟩).notifications.length = 1 ∧
      (responseFulfilled fmt ⟨.object props, status⟩).completion.isFailure = true) := by
  have hother : (lookupProp "code" props).getD .undefined ≠ .number (.finite 200) →
      (responseFulfilled fmt ⟨.object props, status⟩).notifications.length = 1 ∧
      (responseFulfilled fmt ⟨.object props, status⟩).completion.isFailure = true := by
    intro hcode
    rw [responseFulfilled_object_other fmt props status hcode]
    split <;> exact ⟨rfl, rfl⟩
  refine ⟨?_, responseFulfilled_object_ok fmt props status, hother, ?_⟩
  · constructor
    · intro hok
      by_contra hcode
      rw [(hother hcode).2] at hok
      cases hok
    · intro hcode
      rw [responseFulfilled_object_ok fmt props status hcode]
      rfl
  · rintro (h | h | h | h) <;> apply hother <;> rw [h] <;> simp

/-- C4 fails on the code: for a response whose data is `null` or `undefined`
the read `res.code` throws a TypeError, so the handler fails with no
notification emitted.  For an empty string body it does notify and reject. -/
theorem C4_nullish_body_fails_unnotified (fmt : ℚ → String) (status : Nat) :
    responseFulfilled fmt ⟨.null, status⟩ =
      { notifications := [], console := [], completion := .threwTypeError } ∧
    responseFulfilled fmt ⟨.undefined, status⟩ =
      { notifications := [], console := [], completion := .threwTypeError } ∧
    responseFulfilled fmt ⟨.string "", status⟩ =
      { notifications := [.string requestFailedText], console := [],
        completion := .rejected (.error requestFailedText) } := by
  refine ⟨rfl, rfl, ?_⟩
  simp [responseFulfilled, getProp, strictEqualsNumber, logicalOr, ToBoolean, newError,
    ToString, requestFailedText]

/-! ## The error handler: C3 -/

/-- C3: for every error value handed to the response interceptor's error
handler (anything but `undefined` and `null`, so every error object), exactly
one notification is emitted, with `error.message` when that is truthy and
with the default `网络错误` when it is absent, `null` or empty, and the handler
returns a promise rejected with the very error it received; it never
returns a value. -/
theorem C3_transport_error_notified_and_propagated (error : JSValue)
    (hu : error ≠ .undefined) (hn : error ≠ .null) :
    ∃ m, getProp error "message" = some m ∧
      responseRejected error =
        { notifications := [logicalOr m (.string networkErrorText)],
          console := [("响应错误:", error)], completion := .rejected error } ∧
      (ToBoolean m = true → logicalOr m (.string networkErrorText) = m) ∧
      (m = .undefined ∨ m = .null ∨ m = .string "" →
        logicalOr m (.string networkErrorText) = .string networkErrorText) ∧
      (responseRejected error).notifications.length = 1 ∧
      ∀ v, (responseRejected error).completion ≠ .returned v := by
  have hget : ∃ m, getProp error "message" = some m := by
    cases error with
    | undefined => exact absurd rfl hu
    | null => exact absurd rfl hn
    | _ => exact ⟨_, rfl⟩
  obtain ⟨m, hm⟩ := hget
  have hrun : responseRejected error =
      { notifications := [logicalOr m (.string networkErrorText)],
        console := [("响应错误:", error)], completion := .rejected error } := by
    simp [responseRejected, hm]
  refine ⟨m, hm, hrun, ?_, ?_, ?_, ?_⟩
  · intro ht
    simp [logicalOr, ht]
  · rintro (h | h | h) <;> rw [h] <;> simp [logicalOr, ToBoolean]
  · rw [hrun]
    rfl
  · intro v
    rw [hrun]
    simp

/-- C3 at the timeout error
`{ message: 'timeout of 30000ms exceeded', code: 'ECONNABORTED' }`. -/
theorem C3_transport_error_notified_and_propagated_witness :
    timeoutError ≠ .undefined ∧ timeoutError ≠ .null ∧
    ∃ m, getProp timeoutError "message" = some m ∧
      responseRejected timeoutError =
        { notifications := [logicalOr m (.string networkErrorText)],
          console := [("响应错误:", timeoutError)], completion := .rejected timeoutError } ∧
      (ToBoolean m = true → logicalOr m (.string networkErrorText) = m) ∧
      (m = .undefined ∨ m = .null ∨ m = .string "" →
        logicalOr m (.string networkErrorText) = .string networkErrorText) ∧
      (responseRejected timeoutError).notifications.length = 1 ∧
      ∀ v, (responseRejected timeoutError).completion ≠ .returned v :=
  ⟨by simp [timeoutError], by simp [timeoutError],
   C3_transport_error_notified_and_propagated timeoutError
     (by simp [timeoutError]) (by simp [timeoutError])⟩

/-! ## The API operations: C5, C6, C7 -/

/-- A dispatch hands exactly the given configuration to the transport, once,
whatever the transport answers. -/
theorem dispatch_sent (fmt : ℚ → String) (transport : RequestConfig → TransportResult)
    (config : RequestConfig) : (dispatch fmt transport config).sent = [config] := by
  simp only [dispatch, requestFulfilled]
  cases transport config <;> rfl

/-- C5 fails as stated for an id with no string form: for the id
`{ toString: 1 }` the template literal throws a TypeError, so update and
delete issue no request at all, whatever the runtime and the transport. -/
theorem C5_counterexample :
    (∀ fmt : ℚ → String, ToString fmt shadowedToStringId = none) ∧
    (∀ (fmt : ℚ → String) (transport : RequestConfig → TransportResult) (data : JSValue),
      (knowledgeAPI.update fmt transport shadowedToStringId data).sent = [] ∧
      (knowledgeAPI.update fmt transport shadowedToStringId data).completion =
        .threwTypeError) ∧
    (∀ (fmt : ℚ → String) (transport : RequestConfig → TransportResult),
      (knowledgeAPI.delete fmt transport shadowedToStringId).sent = [] ∧
      (knowledgeAPI.delete fmt transport shadowedToStringId).completion =
        .threwTypeError) := by
  have hstr : ∀ fmt : ℚ → String, ToString fmt shadowedToStringId = none := by
    intro fmt
    simp [shadowedToStringId, ToString, lookupProp]
  refine ⟨hstr, ?_, ?_⟩
  · intro fmt transport data
    simp [knowledgeAPI.update, knowledgePath, hstr, abortedCall]
  · intro fmt transport
    simp [knowledgeAPI.delete, knowledgePath, hstr, abortedCall]

/-- C5 as amended: for every id that has a string form `s`, each of the six
operations issues exactly one request, with the documented method and path,
whatever the transport answers; for update and delete the path is
`/knowledge/` followed by `s`. -/
theorem C5_one_request_with_method_and_path (fmt : ℚ → String)
    (transport : RequestConfig → TransportResult) (data params keyword id : JSValue)
    (s : String) (hid : ToString fmt id = some s) :
    (∃ c, (chatAPI.sendMessage fmt transport data).sent = [c] ∧
      c.method = .POST ∧ c.url = "/chat") ∧
    (∃ c, (knowledgeAPI.getList fmt transport params).sent = [c] ∧
      c.method = .GET ∧ c.url = "/knowledge") ∧
    (∃ c, (knowledgeAPI.create fmt transport data).sent = [c] ∧
      c.method = .POST ∧ c.url = "/knowledge") ∧
    (∃ c, (knowledgeAPI.update fmt transport id data).sent = [c] ∧
      c.method = .PUT ∧ c.url = "/knowledge/" ++ s) ∧
    (∃ c, (knowledgeAPI.delete fmt transport id).sent = [c] ∧
      c.method = .DELETE ∧ c.url = "/knowledge/" ++ s) ∧
    (∃ c, (knowledgeAPI.search fmt transport keyword).sent = [c] ∧
      c.method = .GET ∧ c.url = "/knowledge/search") := by
  refine ⟨⟨_, dispatch_sent _ _ _, rfl, rfl⟩, ⟨_, dispatch_sent _ _ _, rfl, rfl⟩,
    ⟨_, dispatch_sent _ _ _, rfl, rfl⟩, ?_, ?_, ⟨_, dispatch_sent _ _ _, rfl, rfl⟩⟩
  · refine ⟨request.put ("/knowledge/" ++ s) data, ?_, rfl, rfl⟩
    simp [knowledgeAPI.update, knowledgePath, hid, dispatch_sent]
  · refine ⟨request.delete ("/knowledge/" ++ s), ?_, rfl, rfl⟩
    simp [knowledgeAPI.delete, knowledgePath, hid, dispatch_sent]

/-- The amended C5 with the string id `'42'` and a transport that fails every request:
each operation still issues its one request. -/
theorem C5_one_request_with_method_and_path_witness :
    ToString (fun _ => "") (.string "42") = some "42" ∧
    (∃ c, (knowledgeAPI.update (fun _ => "") offlineTransport (.string "42")
        .null).sent = [c] ∧ c.method = .PUT ∧ c.url = "/knowledge/" ++ "42") ∧
    (∃ c, (knowledgeAPI.delete (fun _ => "") offlineTransport (.string "42")).sent = [c] ∧
      c.method = .DELETE ∧ c.url = "/knowledge/" ++ "42") :=
  have h := C5_one_request_with_method_and_path (fun _ => "") offlineTransport .null
    .undefined (.string "x") (.string "42") "42" (by simp [ToString])
  ⟨by simp [ToString], h.2.2.2.1, h.2.2.2.2.1⟩

/-- C6 fails as stated for an id with no string form: for the id
`{ toString: 1 }` the template literal throws before `request.put` is
called, so update sends no request, hence none whose body is `data`,
whatever the data, the runtime and the transport. -/
theorem C6_counterexample :
    (∀ fmt : ℚ → String, knowledgePath fmt shadowedToStringId = none) ∧
    ∀ (fmt : ℚ → String) (transport : RequestConfig → TransportResult) (data : JSValue),
      ¬ ∃ c, (knowledgeAPI.update fmt transport shadowedToStringId data).sent = [c] ∧
        c.data = data := by
  have hpath : ∀ fmt : ℚ → String, knowledgePath fmt shadowedToStringId = none := by
    intro fmt
    simp [knowledgePath, shadowedToStringId, ToString, lookupProp]
  refine ⟨hpath, ?_⟩
  rintro fmt transport data ⟨c, hsent, -⟩
  simp [knowledgeAPI.update, hpath, abortedCall] at hsent

/-- C6 as amended: each operation forwards its argument unmodified in the
documented position: `data` is the body of the request of sendMessage and of
create, `params` is the query of getList, the query of search is the object
with the single entry `q` bound to the keyword; for every id that has a
string form update sends its one request with body `data` and delete sends
its one request with neither body nor query; and for every id whatever
update sends has body `data` and whatever delete sends has neither body nor
query. -/
theorem C6_arguments_forwarded (fmt : ℚ → String)
    (transport : RequestConfig → TransportResult) (data params keyword id : JSValue) :
    (∃ c, (chatAPI.sendMessage fmt transport data).sent = [c] ∧ c.data = data) ∧
    (∃ c, (knowledgeAPI.create fmt transport data).sent = [c] ∧ c.data = data) ∧
    (∀ c ∈ (knowledgeAPI.update fmt transport id data).sent, c.data = data) ∧
    (∀ s, ToString fmt id = some s →
      ∃ c, (knowledgeAPI.update fmt transport id data).sent = [c] ∧ c.data = data) ∧
    (∃ c, (knowledgeAPI.getList fmt transport params).sent = [c] ∧ c.params = params) ∧
    (∃ c, (knowledgeAPI.search fmt transport keyword).sent = [c] ∧
      c.params = .object [("q", keyword)]) ∧
    (∀ c ∈ (knowledgeAPI.delete fmt transport id).sent,
      c.data = .undefined ∧ c.params = .undefined) ∧
    (∀ s, ToString fmt id = some s →
      ∃ c, (knowledgeAPI.delete fmt transport id).sent = [c] ∧
        c.data = .undefined ∧ c.params = .undefined) := by
  refine ⟨⟨_, dispatch_sent _ _ _, rfl⟩, ⟨_, dispatch_sent _ _ _, rfl⟩, ?_, ?_,
    ⟨_, dispatch_sent _ _ _, rfl⟩, ⟨_, dispatch_sent _ _ _, rfl⟩, ?_, ?_⟩
  · intro c hc
    unfold knowledgeAPI.update at hc
    cases hp : knowledgePath fmt id with
    | none =>
      rw [hp] at hc
      simp [abortedCall] at hc
    | some url =>
      rw [hp] at hc
      simp only [dispatch_sent, List.mem_singleton] at hc
      rw [hc]
      rfl
  · intro s hid
    refine ⟨request.put ("/knowledge/" ++ s) data, ?_, rfl⟩
    simp [knowledgeAPI.update, knowledgePath, hid, dispatch_sent]
  · intro c hc
    unfold knowledgeAPI.delete at hc
    cases hp : knowledgePath fmt id with
    | none =>
      rw [hp] at hc
      simp [abortedCall] at hc
    | some url =>
      rw [hp] at hc
      simp only [dispatch_sent, List.mem_singleton] at hc
      rw [hc]
      exact ⟨rfl, rfl⟩
  · intro s hid
    refine ⟨request.delete ("/knowledge/" ++ s), ?_, rfl, rfl⟩
    simp [knowledgeAPI.delete, knowledgePath, hid, dispatch_sent]

/-- The amended C6 with the numeric id 7 under a formatting that prints it as `7`: update
sends the given body and delete sends neither body nor query. -/
theorem C6_arguments_forwarded_witness :
    ToString (fun _ => "7") (.number (.finite 7)) = some "7" ∧
    (∃ c, (knowledgeAPI.update (fun _ => "7") offlineTransport (.number (.finite 7))
        (.object [("title", .string "t")])).sent = [c] ∧
      c.data = .object [("title", .string "t")]) ∧
    (∃ c, (knowledgeAPI.delete (fun _ => "7") offlineTransport
        (.number (.finite 7))).sent = [c] ∧ c.data = .undefined ∧ c.params = .undefined) :=
  have h := C6_arguments_forwarded (fun _ => "7") offlineTransport
    (.object [("title", .string "t")]) .undefined (.string "x") (.number (.finite 7))
  ⟨by simp [ToString, numberToString],
   h.2.2.2.1 "7" (by simp [ToString, numberToString]),
   h.2.2.2.2.2.2.2 "7" (by simp [ToString, numberToString])⟩

/-- C7: the request interceptor returns the configuration it receives
unchanged; every operation sends exactly the configuration it built on the
shared instance (for update and delete, whenever the template literal yields
a path); and every request any of the six operations makes carries the base
URL `/api/v1` and the timeout 30000 ms. -/
theorem C7_shared_client_defaults_preserved (fmt : ℚ → String)
    (transport : RequestConfig → TransportResult) (data params keyword id : JSValue) :
    (∀ config, requestFulfilled config = config) ∧
    request.baseURL = "/api/v1" ∧ request.timeout = 30000 ∧
    (chatAPI.sendMessage fmt transport data).sent =
      [{ baseURL := "/api/v1", timeout := 30000, method := .POST, url := "/chat",
         data := data, params := .undefined }] ∧
    (knowledgeAPI.getList fmt transport params).sent =
      [{ baseURL := "/api/v1", timeout := 30000, method := .GET, url := "/knowledge",
         data := .undefined, params := params }] ∧
    (knowledgeAPI.create fmt transport data).sent =
      [{ baseURL := "/api/v1", timeout := 30000, method := .POST, url := "/knowledge",
         data := data, params := .undefined }] ∧
    (∀ url, knowledgePath fmt id = some url →
      (knowledgeAPI.update fmt transport id data).sent =
        [{ baseURL := "/api/v1", timeout := 30000, method := .PUT, url := url,
           data := data, params := .undefined }]) ∧
    (∀ url, knowledgePath fmt id = some url →
      (knowledgeAPI.delete fmt transport id).sent =
        [{ baseURL := "/api/v1", timeout := 30000, method := .DELETE, url := url,
           data := .undefined, params := .undefined }]) ∧
    (knowledgeAPI.search fmt transport keyword).sent =
      [{ baseURL := "/api/v1", timeout := 30000, method := .GET, url := "/knowledge/search",
         data := .undefined, params := .object [("q", keyword)] }] ∧
    (∀ c, c ∈ (chatAPI.sendMessage fmt transport data).sent ++
          (knowledgeAPI.getList fmt transport params).sent ++
          (knowledgeAPI.create fmt transport data).sent ++
          (knowledgeAPI.update fmt transport id data).sent ++
          (knowledgeAPI.delete fmt transport id).sent ++
          (knowledgeAPI.search fmt transport keyword).sent →
      c.baseURL = "/api/v1" ∧ c.timeout = 30000) := by
  have hupdate : ∀ c, c ∈ (knowledgeAPI.update fmt transport id data).sent →
      c.baseURL = "/api/v1" ∧ c.timeout = 30000 := by
    intro c hc
    unfold knowledgeAPI.update at hc
    cases hp : knowledgePath fmt id with
    | none =>
      rw [hp] at hc
      simp [abortedCall] at hc
    | some url =>
      rw [hp] at hc
      simp only [dispatch_sent, List.mem_singleton] at hc
      rw [hc]
      exact ⟨rfl, rfl⟩
  have hdelete : ∀ c, c ∈ (knowledgeAPI.delete fmt transport id).sent →
      c.baseURL = "/api/v1" ∧ c.timeout = 30000 := by
    intro c hc
    unfold knowledgeAPI.delete at hc
    cases hp : knowledgePath fmt id with
    | none =>
      rw [hp] at hc
      simp [abortedCall] at hc
    | some url =>
      rw [hp] at hc
      simp only [dispatch_sent, List.mem_singleton] at hc
      rw [hc]
      exact ⟨rfl, rfl⟩
  refine ⟨fun _ => rfl, rfl, rfl, dispatch_sent _ _ _, dispatch_sent _ _ _,
    dispatch_sent _ _ _, ?_, ?_, dispatch_sent _ _ _, ?_⟩
  · intro url hp
    simp only [knowledgeAPI.update, hp, dispatch_sent]
    rfl
  · intro url hp
    simp only [knowledgeAPI.delete, hp, dispatch_sent]
    rfl
  · intro c hc
    simp only [List.mem_append] at hc
    rcases hc with ((((hc | hc) | hc) | hc) | hc) | hc
    · simp only [chatAPI.sendMessage, dispatch_sent, List.mem_singleton] at hc
      rw [hc]
      exact ⟨rfl, rfl⟩
    · simp only [knowledgeAPI.getList, dispatch_sent, List.mem_singleton] at hc
      rw [hc]
      exact ⟨rfl, rfl⟩
    · simp only [knowledgeAPI.create, dispatch_sent, List.mem_singleton] at hc
      rw [hc]
      exact ⟨rfl, rfl⟩
    · exact hupdate c hc
    · exact hdelete c hc
    · simp only [knowledgeAPI.search, dispatch_sent, List.mem_singleton] at hc
      rw [hc]
      exact ⟨rfl, rfl⟩

/-! ## The route table: C8 -/

/-- C8: resolving `/` follows one redirect to `/chat` and ends at ChatView,
`/chat` gives ChatView and `/knowledge` gives KnowledgeView with no redirect;
every redirect of the table targets `/chat`, whose record has a component and
no redirect; and every entry of the table resolves to a component after at
most one redirect, for every fuel of at least two lookups. -/
theorem C8_routes_resolve (n : Nat) :
    resolve routes (n + 2) "/" = some (.ChatView, 1) ∧
    resolve routes (n + 2) "/chat" = some (.ChatView, 0) ∧
    resolve routes (n + 2) "/knowledge" = some (.KnowledgeView, 0) ∧
    (∀ r ∈ routes, ∀ target, r.redirect = some target → target = "/chat") ∧
    (∃ r, matchRecord routes "/chat" = some r ∧ r.component = some .ChatView ∧
      r.redirect = none) ∧
    (∀ r ∈ routes, ∃ c k, resolve routes (n + 2) r.path = some (c, k) ∧ k ≤ 1) := by
  have hroot : resolve routes (n + 2) "/" = some (.ChatView, 1) := rfl
  have hchat : resolve routes (n + 2) "/chat" = some (.ChatView, 0) := rfl
  have hknow : resolve routes (n + 2) "/knowledge" = some (.KnowledgeView, 0) := rfl
  refine ⟨hroot, hchat, hknow, ?_, ⟨_, rfl, rfl, rfl⟩, ?_⟩
  · intro r hr target ht
    simp only [routes, List.mem_cons, List.mem_singleton, List.not_mem_nil, or_false] at hr
    rcases hr with rfl | rfl | rfl
    · simpa using ht.symm
    · simp at ht
    · simp at ht
  · intro r hr
    simp only [routes, List.mem_cons, List.mem_singleton, List.not_mem_nil, or_false] at hr
    rcases hr with rfl | rfl | rfl
    · exact ⟨.ChatView, 1, hroot, le_refl 1⟩
    · exact ⟨.ChatView, 0, hchat, Nat.zero_le 1⟩
    · exact ⟨.KnowledgeView, 0, hknow, Nat.zero_le 1⟩

end Spec2Proof
